import Mathlib

/-!
# Verification of the Diffusive Bubble Growth pressure logger firmware

Shallow embedding of `src_mcu/src/main.cpp` (the firmware core of the
single-channel pressure logger) and proofs about it.

Modelling decisions:
* `float` values flowing through the acquisition/calibration/report pipeline
  are modelled as `EFloat := Option ℚ`: `none` stands for the IEEE
  not-a-number value `NAN` (used by the firmware to mark not-yet-available
  data) and `some q` for a finite float, with arithmetic idealised to exact
  rational arithmetic.  NaN propagation through arithmetic is modelled by
  `Option` propagation.
* `uint32_t` timestamps (`millis()`) are natural numbers reduced modulo
  `2^32`; the C unsigned subtraction `now - flash_tick` is `u32sub`.
* The external collaborators (`R_click` acquisition driver,
  `DvG_StreamCommand` tokenizer, `Adafruit_NeoPixel` indicator, `Serial`
  output) are modelled at their interfaces: each loop iteration receives the
  driver's current filtered estimates and the (at most one) completed command
  string as inputs, and produces the serial output of the iteration as a
  string together with an event trace recording the order of interactions.
-/

/-- `2^32`, the modulus of the `uint32_t` timestamp arithmetic. -/
def U32 : ℕ := 4294967296

/-- Wrap-safe unsigned 32-bit subtraction `a - b`, as performed by the C
expression `now - flash_tick` on `uint32_t` operands. -/
def u32sub (a b : ℕ) : ℕ :=
  (a % U32 + U32 - b % U32) % U32

/-- Floats of the report pipeline: `none` is the `NAN` marker, `some q` a
finite value (idealised to an exact rational). -/
def EFloat : Type := Option ℚ

instance : DecidableEq EFloat := by
  unfold EFloat; infer_instance

/-- The `NAN` default of the `Readings` fields. -/
def EFloat.nan : EFloat := none

/-- A finite float value. -/
def EFloat.val (q : ℚ) : EFloat := some q

/-- `struct Pressure_Calibration` of main.cpp: the RS PRO pressure sensor
calibration parameters `zero_mA`, `span_mA`, `full_range_bar`. -/
structure Pressure_Calibration where
  zero_mA : ℚ
  span_mA : ℚ
  full_range_bar : ℚ
deriving DecidableEq

/-- `PRESSURE_CALIB{4.01, 15.99, 10.0}`: the calibration constants baked into
the firmware for sensor serial 1037812. -/
def PRESSURE_CALIB : Pressure_Calibration :=
  { zero_mA := 401/100, span_mA := 1599/100, full_range_bar := 10 }

/-- `mA2bar` of main.cpp on finite inputs:
`(mA - calib.zero_mA) / calib.span_mA * calib.full_range_bar`. -/
def mA2barQ (mA : ℚ) (calib : Pressure_Calibration) : ℚ :=
  (mA - calib.zero_mA) / calib.span_mA * calib.full_range_bar

/-- `mA2bar` of main.cpp lifted to the NaN-aware float model: a `NAN` input
propagates to a `NAN` result (IEEE arithmetic on NaN yields NaN). -/
def mA2bar (mA : EFloat) (calib : Pressure_Calibration) : EFloat :=
  Option.map (fun m => mA2barQ m calib) mA

/-- `FLASH_LENGTH = 100` of main.cpp: the flash duration, in units of the
`millis()` clock against which it is compared. -/
def FLASH_LENGTH : ℕ := 100

/-- `NEO_DIM = 2` of main.cpp: dim brightness level. -/
def NEO_DIM : ℕ := 2

/-- `NEO_BRIGHT = 6` of main.cpp: bright brightness level. -/
def NEO_BRIGHT : ℕ := 6

/-- `Adafruit_NeoPixel::Color(r, g, b)`: packs an RGB triple into a 32-bit
word `(r << 16) | (g << 8) | b` (external indicator driver, modelled at its
interface). -/
def neoColor (r g b : ℕ) : ℕ :=
  r * 65536 + g * 256 + b

/-- The bright-green flash colour `neo.Color(0, NEO_BRIGHT, 0)`. -/
def brightGreen : ℕ := neoColor 0 NEO_BRIGHT 0

/-- The dim-green idle colour `neo.Color(0, NEO_DIM, 0)`. -/
def dimGreen : ℕ := neoColor 0 NEO_DIM 0

/-- `struct Readings` of main.cpp; every field defaults to `NAN`. -/
structure Readings where
  pres_bitval : EFloat := EFloat.nan
  pres_mA : EFloat := EFloat.nan
  pres_bar : EFloat := EFloat.nan
deriving DecidableEq

/-- The global `Readings readings;` as default-initialised: all fields NaN. -/
def initReadings : Readings := {}

/-- Decimal-digit extraction loop of Arduino `Print::printFloat`: repeatedly
multiply the remainder by 10, print the truncated digit, subtract it. -/
def fracDigits (r : ℚ) : ℕ → String
  | 0 => ""
  | d + 1 =>
      let r10 := r * 10
      let toPrint := (⌊r10⌋).toNat
      toString toPrint ++ fracDigits (r10 - toPrint) d

/-- Arduino `Print::printFloat(number, digits)` on a nonnegative finite
value: add `0.5 / 10^digits` for rounding, print the truncated integer part,
a decimal point when `digits > 0`, then the fractional digits. -/
def printFloatNN (q : ℚ) (digits : ℕ) : String :=
  let rounding : ℚ := (1/2) / 10 ^ digits
  let number := q + rounding
  let int_part := (⌊number⌋).toNat
  let remainder := number - int_part
  toString int_part ++ (if digits > 0 then "." else "") ++ fracDigits remainder digits

/-- Arduino `Serial.print(value, digits)` for a float `value` (external
`Print` collaborator, modelled at its interface): `NAN` prints as `"nan"`,
out-of-range values as `"ovf"`, a negative value as `'-'` followed by its
negation, and otherwise `printFloatNN`. -/
def printFloat (x : EFloat) (digits : ℕ) : String :=
  match x with
  | none => "nan"
  | some q =>
      if q > 4294967040 then "ovf"
      else if q < -4294967040 then "ovf"
      else if q < 0 then "-" ++ printFloatNN (-q) digits
      else printFloatNN q digits

/-- The fixed identity string reported for `id?`. -/
def idString : String := "Arduino, Diffusive Bubble Growth logger"

/-- Interactions of one `loop()` iteration with the external collaborators,
in program order. -/
inductive Event where
  | pollEMA                  -- `R_click.poll_EMA();`
  | pollCommand              -- `sc.available()` / `sc.getCommand()`
  | neoShow (color : ℕ)      -- `neo.setPixelColor(0, color); neo.show();`
  | serialEmit (s : String)  -- bytes written to `Serial`
deriving DecidableEq

/-- The core state owned by `loop()`: the `static` flash state, the flash
timestamp, the global `readings`, and the indicator's current colour. -/
structure LoopState where
  flash : Bool
  flash_tick : ℕ
  readings : Readings
  neo : ℕ
deriving DecidableEq

/-- State at the end of `setup()`: indicator dim green, no flash pending,
readings all NaN.  `flash_tick` is initialised to the first iteration's
`now` by `static uint32_t flash_tick = now;`. -/
def initState (t0 : ℕ) : LoopState :=
  { flash := false, flash_tick := t0 % U32, readings := initReadings,
    neo := dimGreen }

/-- Per-iteration inputs from the external collaborators: the `millis()`
value, the tokenizer's completed command (if any), and the acquisition
driver's current filtered estimates. -/
structure Env where
  now : ℕ
  cmd : Option String
  ema_bitval : EFloat
  ema_mA : EFloat

/-- Result of one `loop()` iteration: the new core state, the serial output
of the iteration, and the ordered event trace. -/
structure StepResult where
  state : LoopState
  out : String
  events : List Event
deriving DecidableEq

/-- The tab-separated, newline-terminated report record emitted for `?`:
`Serial.print(pres_bitval, 0); '\t'; Serial.print(pres_mA, 2); '\t';
Serial.println(pres_bar, 3)`. -/
def reportRecord (r : Readings) : String :=
  printFloat r.pres_bitval 0 ++ "\t" ++ printFloat r.pres_mA 2 ++ "\t"
    ++ printFloat r.pres_bar 3 ++ "\n"

/-- One iteration of `loop()` of main.cpp, parameterised over the calibration
configuration (`PRESSURE_CALIB` in the shipped firmware):

1. `uint32_t now = millis();`
2. `R_click.poll_EMA();`
3. `if (sc.available())`: flash the NeoPixel bright green, set
   `flash = true; flash_tick = now;`, then dispatch the command:
   `"id?"` emits the identity line, `"?"` snapshots the EMA outputs into
   `readings`, applies `mA2bar`, and emits the report record; any other
   command emits nothing.
4. `if (flash && (now - flash_tick >= FLASH_LENGTH))`: clear `flash` and set
   the NeoPixel back to dim green. -/
def loopStep (calib : Pressure_Calibration) (s : LoopState) (e : Env) :
    StepResult :=
  let now := e.now % U32
  let ev0 : List Event := [Event.pollEMA, Event.pollCommand]
  let mid : LoopState × String × List Event :=
    match e.cmd with
    | none => (s, "", [])
    | some str_cmd =>
        let sf : LoopState :=
          { s with neo := brightGreen, flash := true, flash_tick := now }
        if str_cmd = "id?" then
          (sf, idString ++ "\n",
            [Event.neoShow brightGreen, Event.serialEmit (idString ++ "\n")])
        else if str_cmd = "?" then
          let r : Readings :=
            { pres_bitval := e.ema_bitval, pres_mA := e.ema_mA,
              pres_bar := mA2bar e.ema_mA calib }
          ({ sf with readings := r }, reportRecord r,
            [Event.neoShow brightGreen, Event.serialEmit (reportRecord r)])
        else
          (sf, "", [Event.neoShow brightGreen])
  let s1 := mid.1
  let out1 := mid.2.1
  let ev1 := mid.2.2
  if s1.flash = true ∧ FLASH_LENGTH ≤ u32sub now s1.flash_tick then
    { state := { s1 with flash := false, neo := dimGreen },
      out := out1,
      events := ev0 ++ ev1 ++ [Event.neoShow dimGreen] }
  else
    { state := s1, out := out1, events := ev0 ++ ev1 }

/-- A run of the control loop: fold `loopStep` over a list of per-iteration
environments. -/
def loopRun (calib : Pressure_Calibration) (s : LoopState) :
    List Env → LoopState
  | [] => s
  | e :: es => loopRun calib (loopStep calib s e).state es

/-! ## Evaluation helpers -/

lemma u32sub_self (a : ℕ) : u32sub a a = 0 := by
  unfold u32sub U32
  omega

/-- Characterization of a `loop()` iteration in which no command arrives. -/
lemma loopStep_none (calib : Pressure_Calibration) (s : LoopState) (e : Env)
    (h : e.cmd = none) :
    loopStep calib s e =
      if s.flash = true ∧ FLASH_LENGTH ≤ u32sub (e.now % U32) s.flash_tick then
        { state := { s with flash := false, neo := dimGreen }, out := "",
          events := [Event.pollEMA, Event.pollCommand, Event.neoShow dimGreen] }
      else
        { state := s, out := "", events := [Event.pollEMA, Event.pollCommand] } := by
  simp only [loopStep, h]
  split <;> rfl

/-- Characterization of a `loop()` iteration receiving the `id?` command. -/
lemma loopStep_id (calib : Pressure_Calibration) (s : LoopState) (e : Env)
    (h : e.cmd = some "id?") :
    loopStep calib s e =
      { state := { s with neo := brightGreen, flash := true,
                          flash_tick := e.now % U32 },
        out := idString ++ "\n",
        events := [Event.pollEMA, Event.pollCommand, Event.neoShow brightGreen,
                   Event.serialEmit (idString ++ "\n")] } := by
  simp +decide [loopStep, h, u32sub_self, FLASH_LENGTH]

/-- Characterization of a `loop()` iteration receiving the `?` command. -/
lemma loopStep_report (calib : Pressure_Calibration) (s : LoopState) (e : Env)
    (h : e.cmd = some "?") :
    loopStep calib s e =
      { state := { s with neo := brightGreen, flash := true,
                          flash_tick := e.now % U32,
                          readings := { pres_bitval := e.ema_bitval,
                                        pres_mA := e.ema_mA,
                                        pres_bar := mA2bar e.ema_mA calib } },
        out := reportRecord { pres_bitval := e.ema_bitval, pres_mA := e.ema_mA,
                              pres_bar := mA2bar e.ema_mA calib },
        events := [Event.pollEMA, Event.pollCommand, Event.neoShow brightGreen,
                   Event.serialEmit (reportRecord
                     { pres_bitval := e.ema_bitval, pres_mA := e.ema_mA,
                       pres_bar := mA2bar e.ema_mA calib })] } := by
  simp +decide [loopStep, h, u32sub_self, FLASH_LENGTH]

/-- Characterization of a `loop()` iteration receiving an unrecognized
command. -/
lemma loopStep_other (calib : Pressure_Calibration) (s : LoopState) (e : Env)
    (c : String) (h : e.cmd = some c) (h1 : c ≠ "id?") (h2 : c ≠ "?") :
    loopStep calib s e =
      { state := { s with neo := brightGreen, flash := true,
                          flash_tick := e.now % U32 },
        out := "",
        events := [Event.pollEMA, Event.pollCommand,
                   Event.neoShow brightGreen] } := by
  simp +decide [loopStep, h, h1, h2, u32sub_self, FLASH_LENGTH]

lemma floor_eq_nat_of (q : ℚ) (n : ℕ) (r : ℚ) (h : q = n + r) (h0 : 0 ≤ r)
    (h1 : r < 1) : ⌊q⌋ = (n : ℤ) := by
  rw [Int.floor_eq_iff]
  constructor
  · push_cast
    rw [h]
    linarith
  · push_cast
    rw [h]
    linarith

/-- Unfold one evaluation of `printFloatNN` given the decomposition of the
rounded value into integer part `n` and remainder `r ∈ [0, 1)`. -/
lemma printFloatNN_eq (q : ℚ) (d : ℕ) (n : ℕ) (r : ℚ)
    (h : q + (1/2)/10^d = n + r) (h0 : 0 ≤ r) (h1 : r < 1) :
    printFloatNN q d
      = toString n ++ (if d > 0 then "." else "") ++ fracDigits r d := by
  have hf : ⌊q + (1/2)/10^d⌋ = (n : ℤ) := floor_eq_nat_of _ n r h h0 h1
  have hr : q + (1/2)/10^d - ((n : ℕ) : ℚ) = r := by
    rw [h]
    ring
  simp only [printFloatNN, hf, Int.toNat_natCast, hr]

/-- Unfold one step of the `fracDigits` loop given the decomposition of
`r * 10` into the digit `k` and the next remainder `r2 ∈ [0, 1)`. -/
lemma fracDigits_step (r : ℚ) (d : ℕ) (k : ℕ) (r2 : ℚ)
    (h : r * 10 = k + r2) (h0 : 0 ≤ r2) (h1 : r2 < 1) :
    fracDigits r (d + 1) = toString k ++ fracDigits r2 d := by
  have hf : ⌊r * 10⌋ = (k : ℤ) := floor_eq_nat_of _ k r2 h h0 h1
  have hr : r * 10 - ((k : ℕ) : ℚ) = r2 := by
    rw [h]
    ring
  simp only [fracDigits, hf, Int.toNat_natCast, hr]

lemma printFloat_2048 : printFloat (some 2048) 0 = "2048" := by
  have e1 : printFloatNN 2048 0 = toString (2048:ℕ) ++ "" ++ fracDigits (1/2) 0 := by
    rw [printFloatNN_eq 2048 0 2048 (1/2) (by norm_num) (by norm_num) (by norm_num)]
    norm_num
  have h : printFloat (some 2048) 0 = printFloatNN 2048 0 := by
    simp [printFloat]
    norm_num
  rw [h, e1]
  rfl

lemma printFloat_12 : printFloat (some 12) 2 = "12.00" := by
  have e1 : printFloatNN 12 2 = toString (12:ℕ) ++ "." ++ fracDigits (1/200) 2 := by
    rw [printFloatNN_eq 12 2 12 (1/200) (by norm_num) (by norm_num) (by norm_num)]
    norm_num
  have e2 : fracDigits ((1:ℚ)/200) 2 = toString (0:ℕ) ++ fracDigits (1/20) 1 :=
    fracDigits_step _ _ 0 (1/20) (by norm_num) (by norm_num) (by norm_num)
  have e3 : fracDigits ((1:ℚ)/20) 1 = toString (0:ℕ) ++ fracDigits (1/2) 0 :=
    fracDigits_step _ _ 0 (1/2) (by norm_num) (by norm_num) (by norm_num)
  have h : printFloat (some 12) 2 = printFloatNN 12 2 := by
    simp [printFloat]
    norm_num
  rw [h, e1, e2, e3]
  rfl

lemma printFloat_5 : printFloat (some 5) 3 = "5.000" := by
  have e1 : printFloatNN 5 3 = toString (5:ℕ) ++ "." ++ fracDigits (1/2000) 3 := by
    rw [printFloatNN_eq 5 3 5 (1/2000) (by norm_num) (by norm_num) (by norm_num)]
    norm_num
  have e2 : fracDigits ((1:ℚ)/2000) 3 = toString (0:ℕ) ++ fracDigits (1/200) 2 :=
    fracDigits_step _ _ 0 (1/200) (by norm_num) (by norm_num) (by norm_num)
  have e3 : fracDigits ((1:ℚ)/200) 2 = toString (0:ℕ) ++ fracDigits (1/20) 1 :=
    fracDigits_step _ _ 0 (1/20) (by norm_num) (by norm_num) (by norm_num)
  have e4 : fracDigits ((1:ℚ)/20) 1 = toString (0:ℕ) ++ fracDigits (1/2) 0 :=
    fracDigits_step _ _ 0 (1/2) (by norm_num) (by norm_num) (by norm_num)
  have h : printFloat (some 5) 3 = printFloatNN 5 3 := by
    simp [printFloat]
    norm_num
  rw [h, e1, e2, e3, e4]
  rfl

/-! ## Claim theorems -/

lemma mA2bar_val (m : ℚ) (calib : Pressure_Calibration) :
    mA2bar (EFloat.val m) calib = EFloat.val (mA2barQ m calib) := rfl

/-- C2: for all finite inputs and parameters with a nonzero span, the
Calibration Transform returns exactly
`(current_mA - zero_current) / span_current * full_scale_value`, with no
clamping and no error path; it is linear (affine) in the current, maps
`zero_current` to `0` and `zero_current + span_current` to
`full_scale_value`. -/
theorem C2_calibration_exact_linear (zero span full : ℚ) (h : span ≠ 0) :
    (∀ m : ℚ, mA2bar (EFloat.val m) ⟨zero, span, full⟩
        = EFloat.val ((m - zero) / span * full))
    ∧ (∀ m : ℚ, mA2barQ m ⟨zero, span, full⟩
        = (full / span) * m - (full / span) * zero)
    ∧ mA2bar (EFloat.val zero) ⟨zero, span, full⟩ = EFloat.val 0
    ∧ mA2bar (EFloat.val (zero + span)) ⟨zero, span, full⟩
        = EFloat.val full := by
  refine ⟨fun m => rfl, fun m => ?_, ?_, ?_⟩
  · unfold mA2barQ
    field_simp
    ring
  · rw [mA2bar_val]
    unfold mA2barQ EFloat.val
    norm_num
  · rw [mA2bar_val]
    unfold mA2barQ EFloat.val
    rw [add_sub_cancel_left, div_self h, one_mul]

/-- Witness for C2 at the spec's example calibration: zero 4, span 16,
full scale 10. -/
theorem C2_calibration_exact_linear_witness :
    (16 : ℚ) ≠ 0
    ∧ mA2bar (EFloat.val 4) ⟨4, 16, 10⟩ = EFloat.val 0
    ∧ mA2bar (EFloat.val (4 + 16)) ⟨4, 16, 10⟩ = EFloat.val 10 := by
  have h := C2_calibration_exact_linear 4 16 10 (by norm_num)
  exact ⟨by norm_num, h.2.2.1, h.2.2.2⟩

/-- C3: when the command channel delivers exactly the identity query `id?`,
the program emits exactly the one line
`Arduino, Diffusive Bubble Growth logger` followed by a newline, and
nothing else (the event trace holds exactly one serial emission). -/
theorem C3_identity_response (calib : Pressure_Calibration) (s : LoopState)
    (e : Env) (h : e.cmd = some "id?") :
    (loopStep calib s e).out = "Arduino, Diffusive Bubble Growth logger\n"
    ∧ (loopStep calib s e).events
      = [Event.pollEMA, Event.pollCommand, Event.neoShow brightGreen,
         Event.serialEmit "Arduino, Diffusive Bubble Growth logger\n"] := by
  rw [loopStep_id calib s e h]
  exact ⟨rfl, rfl⟩

/-- Witness for C3: a concrete iteration receiving `id?`. -/
theorem C3_identity_response_witness :
    (loopStep PRESSURE_CALIB (initState 0)
        { now := 0, cmd := some "id?", ema_bitval := EFloat.nan,
          ema_mA := EFloat.nan }).out
      = "Arduino, Diffusive Bubble Growth logger\n" :=
  (C3_identity_response PRESSURE_CALIB (initState 0)
    { now := 0, cmd := some "id?", ema_bitval := EFloat.nan,
      ema_mA := EFloat.nan } rfl).1

/-- C7: in every iteration of the control loop the acquisition poll happens
unconditionally and strictly before the command channel is polled (and hence
before any command is dispatched): the event trace of every iteration starts
with `pollEMA` followed by `pollCommand`. -/
theorem C7_poll_before_dispatch (calib : Pressure_Calibration) (s : LoopState)
    (e : Env) :
    List.take 2 (loopStep calib s e).events
      = [Event.pollEMA, Event.pollCommand] := by
  cases hc : e.cmd with
  | none =>
      rw [loopStep_none calib s e hc]
      split <;> rfl
  | some c =>
      by_cases h1 : c = "id?"
      · subst h1
        rw [loopStep_id calib s e hc]
        rfl
      · by_cases h2 : c = "?"
        · subst h2
          rw [loopStep_report calib s e hc]
          rfl
        · rw [loopStep_other calib s e c hc h1 h2]
          rfl

/-- C9: the `readings` structure is mutated only by a dispatched report
command; in every iteration whose command is absent, the identity query, or
unrecognized, all three fields of `readings` are unchanged. -/
theorem C9_readings_frame (calib : Pressure_Calibration) (s : LoopState)
    (e : Env) (h : e.cmd ≠ some "?") :
    (loopStep calib s e).state.readings = s.readings := by
  cases hc : e.cmd with
  | none =>
      rw [loopStep_none calib s e hc]
      split <;> rfl
  | some c =>
      by_cases h1 : c = "id?"
      · subst h1
        rw [loopStep_id calib s e hc]
      · have h2 : c ≠ "?" := by
          intro hh
          exact h (hh ▸ hc)
        rw [loopStep_other calib s e c hc h1 h2]

/-- Witness for C9: an `id?` iteration leaves the readings untouched. -/
theorem C9_readings_frame_witness :
    (some "id?" ≠ some "?")
    ∧ (loopStep PRESSURE_CALIB (initState 0)
        { now := 0, cmd := some "id?", ema_bitval := EFloat.val 1,
          ema_mA := EFloat.val 2 }).state.readings
      = (initState 0).readings :=
  ⟨by decide,
   C9_readings_frame PRESSURE_CALIB (initState 0)
     { now := 0, cmd := some "id?", ema_bitval := EFloat.val 1,
       ema_mA := EFloat.val 2 } (by decide)⟩

/-- C4: after each received command the indicator flashes for exactly the
flash duration: while flashing, an iteration without a command keeps it
flashing with the indicator unchanged when the elapsed time is below
FLASH_LENGTH, and returns it to idle (dim) once the elapsed time reaches
FLASH_LENGTH; a command arriving while flashing resets the flash timer to
the new command's timestamp, and the indicator is never set to dim during an
iteration that receives a command. -/
theorem C4_flash_duration_window (calib : Pressure_Calibration)
    (s : LoopState) (e : Env) (hs : s.flash = true) :
    (e.cmd = none →
      (u32sub (e.now % U32) s.flash_tick < FLASH_LENGTH →
        (loopStep calib s e).state.flash = true
        ∧ (loopStep calib s e).state.neo = s.neo
        ∧ (loopStep calib s e).state.flash_tick = s.flash_tick)
      ∧ (FLASH_LENGTH ≤ u32sub (e.now % U32) s.flash_tick →
        (loopStep calib s e).state.flash = false
        ∧ (loopStep calib s e).state.neo = dimGreen))
    ∧ (∀ c, e.cmd = some c →
        (loopStep calib s e).state.flash = true
        ∧ (loopStep calib s e).state.flash_tick = e.now % U32
        ∧ (loopStep calib s e).state.neo = brightGreen
        ∧ Event.neoShow dimGreen ∉ (loopStep calib s e).events) := by
  constructor
  · intro hn
    rw [loopStep_none calib s e hn]
    constructor
    · intro hlt
      have hneg : ¬(s.flash = true
          ∧ FLASH_LENGTH ≤ u32sub (e.now % U32) s.flash_tick) := by
        rintro ⟨-, hge⟩
        omega
      rw [if_neg hneg]
      exact ⟨hs, rfl, rfl⟩
    · intro hge
      rw [if_pos ⟨hs, hge⟩]
      exact ⟨rfl, rfl⟩
  · intro c hc
    have hbd : Event.neoShow dimGreen ≠ Event.neoShow brightGreen := by
      simp [dimGreen, brightGreen, neoColor, NEO_DIM, NEO_BRIGHT]
    by_cases h1 : c = "id?"
    · subst h1
      rw [loopStep_id calib s e hc]
      refine ⟨rfl, rfl, rfl, ?_⟩
      simp [hbd]
    · by_cases h2 : c = "?"
      · subst h2
        rw [loopStep_report calib s e hc]
        refine ⟨rfl, rfl, rfl, ?_⟩
        simp [hbd]
      · rw [loopStep_other calib s e c hc h1 h2]
        refine ⟨rfl, rfl, rfl, ?_⟩
        simp [hbd]

/-- Witness for C4: with the flash pending since tick 0, an empty iteration
at time 50 stays flashing, one at time 150 returns to idle, and a command at
time 50 resets the flash timer to 50. -/
theorem C4_flash_duration_window_witness :
    ((loopStep PRESSURE_CALIB
        { flash := true, flash_tick := 0, readings := initReadings,
          neo := brightGreen }
        { now := 50, cmd := none, ema_bitval := EFloat.nan,
          ema_mA := EFloat.nan }).state.flash = true
      ∧ (loopStep PRESSURE_CALIB
          { flash := true, flash_tick := 0, readings := initReadings,
            neo := brightGreen }
          { now := 150, cmd := none, ema_bitval := EFloat.nan,
            ema_mA := EFloat.nan }).state.flash = false)
    ∧ (loopStep PRESSURE_CALIB
        { flash := true, flash_tick := 0, readings := initReadings,
          neo := brightGreen }
        { now := 50, cmd := some "?", ema_bitval := EFloat.nan,
          ema_mA := EFloat.nan }).state.flash_tick = 50 % U32 := by
  refine ⟨⟨?_, ?_⟩, ?_⟩
  · exact (((C4_flash_duration_window PRESSURE_CALIB
      { flash := true, flash_tick := 0, readings := initReadings,
        neo := brightGreen }
      { now := 50, cmd := none, ema_bitval := EFloat.nan,
        ema_mA := EFloat.nan } rfl).1 rfl).1 (by decide)).1
  · exact (((C4_flash_duration_window PRESSURE_CALIB
      { flash := true, flash_tick := 0, readings := initReadings,
        neo := brightGreen }
      { now := 150, cmd := none, ema_bitval := EFloat.nan,
        ema_mA := EFloat.nan } rfl).1 rfl).2 (by decide)).1
  · exact ((C4_flash_duration_window PRESSURE_CALIB
      { flash := true, flash_tick := 0, readings := initReadings,
        neo := brightGreen }
      { now := 50, cmd := some "?", ema_bitval := EFloat.nan,
        ema_mA := EFloat.nan } rfl).2 "?" rfl).2.1

/-- C5: command dispatch is case-exact: every delivered command transitions
the indicator to Flashing (flash set, timer stamped, pixel bright), and a
command other than exactly "id?" or exactly "?" produces no serial output
and changes no core state besides that indicator transition. -/
theorem C5_exact_match_dispatch (calib : Pressure_Calibration)
    (s : LoopState) (e : Env) (c : String) (h : e.cmd = some c) :
    ((loopStep calib s e).state.flash = true
      ∧ (loopStep calib s e).state.flash_tick = e.now % U32
      ∧ (loopStep calib s e).state.neo = brightGreen)
    ∧ (c ≠ "id?" → c ≠ "?" →
        (loopStep calib s e).out = ""
        ∧ (∀ str, Event.serialEmit str ∉ (loopStep calib s e).events)
        ∧ (loopStep calib s e).state
          = { s with neo := brightGreen, flash := true,
                     flash_tick := e.now % U32 }) := by
  by_cases h1 : c = "id?"
  · subst h1
    rw [loopStep_id calib s e h]
    exact ⟨⟨rfl, rfl, rfl⟩, fun hh _ => absurd rfl hh⟩
  · by_cases h2 : c = "?"
    · subst h2
      rw [loopStep_report calib s e h]
      exact ⟨⟨rfl, rfl, rfl⟩, fun _ hh => absurd rfl hh⟩
    · rw [loopStep_other calib s e c h h1 h2]
      refine ⟨⟨rfl, rfl, rfl⟩, fun _ _ => ⟨rfl, ?_, rfl⟩⟩
      intro str
      simp

/-- Witness for C5: the wrong-case command "ID?" flashes the indicator but
produces no output and no other state change. -/
theorem C5_exact_match_dispatch_witness :
    ((loopStep PRESSURE_CALIB (initState 0)
        { now := 7, cmd := some "ID?", ema_bitval := EFloat.nan,
          ema_mA := EFloat.nan }).state.flash = true
      ∧ (loopStep PRESSURE_CALIB (initState 0)
          { now := 7, cmd := some "ID?", ema_bitval := EFloat.nan,
            ema_mA := EFloat.nan }).out = "") := by
  have h := C5_exact_match_dispatch PRESSURE_CALIB (initState 0)
    { now := 7, cmd := some "ID?", ema_bitval := EFloat.nan,
      ema_mA := EFloat.nan } "ID?" rfl
  exact ⟨h.1.1, (h.2 (by decide) (by decide)).1⟩

/-- C10: the flash duration constant equals 100 units of the millisecond
clock: while flashing, an iteration without a command keeps the indicator
state unchanged when the elapsed millis time is below 100 and returns it to
dim idle once it reaches 100. -/
theorem C10_flash_length_100 (calib : Pressure_Calibration) (s : LoopState)
    (e : Env) (hs : s.flash = true) (hn : e.cmd = none) :
    FLASH_LENGTH = 100
    ∧ (u32sub (e.now % U32) s.flash_tick < 100 →
        (loopStep calib s e).state.flash = true
        ∧ (loopStep calib s e).state.neo = s.neo)
    ∧ (100 ≤ u32sub (e.now % U32) s.flash_tick →
        (loopStep calib s e).state.flash = false
        ∧ (loopStep calib s e).state.neo = dimGreen) := by
  have hF : FLASH_LENGTH = 100 := rfl
  refine ⟨hF, ?_, ?_⟩
  · intro hlt
    rw [loopStep_none calib s e hn]
    have hneg : ¬(s.flash = true
        ∧ FLASH_LENGTH ≤ u32sub (e.now % U32) s.flash_tick) := by
      rw [hF]
      rintro ⟨-, hge⟩
      omega
    rw [if_neg hneg]
    exact ⟨hs, rfl⟩
  · intro hge
    rw [loopStep_none calib s e hn]
    rw [if_pos ⟨hs, hF ▸ hge⟩]
    exact ⟨rfl, rfl⟩

/-- Witness for C10: elapsed 99 keeps the flash, elapsed 100 ends it. -/
theorem C10_flash_length_100_witness :
    ((loopStep PRESSURE_CALIB
        { flash := true, flash_tick := 20, readings := initReadings,
          neo := brightGreen }
        { now := 119, cmd := none, ema_bitval := EFloat.nan,
          ema_mA := EFloat.nan }).state.flash = true
      ∧ (loopStep PRESSURE_CALIB
          { flash := true, flash_tick := 20, readings := initReadings,
            neo := brightGreen }
          { now := 120, cmd := none, ema_bitval := EFloat.nan,
            ema_mA := EFloat.nan }).state.flash = false) := by
  constructor
  · exact ((C10_flash_length_100 PRESSURE_CALIB
      { flash := true, flash_tick := 20, readings := initReadings,
        neo := brightGreen }
      { now := 119, cmd := none, ema_bitval := EFloat.nan,
        ema_mA := EFloat.nan } rfl rfl).2.1 (by decide)).1
  · exact ((C10_flash_length_100 PRESSURE_CALIB
      { flash := true, flash_tick := 20, readings := initReadings,
        neo := brightGreen }
      { now := 120, cmd := none, ema_bitval := EFloat.nan,
        ema_mA := EFloat.nan } rfl rfl).2.2 (by decide)).1

/-- C8: elapsed time for the flash timeout is computed as the wrap-safe
unsigned difference of the two timestamps modulo 2^32, so for a flash
stamped at true time t and a check at true time t + elapsed with
elapsed < 2^32, the unsigned difference equals elapsed and the loop clears
the flash exactly when elapsed has reached FLASH_LENGTH — even when the
clock counter wraps between the command and the check. -/
theorem C8_wrap_safe_elapsed (calib : Pressure_Calibration) (s : LoopState)
    (e : Env) (t elapsed : ℕ) (hel : elapsed < U32) (hs : s.flash = true)
    (htick : s.flash_tick = t % U32) (hnow : e.now = (t + elapsed) % U32)
    (hn : e.cmd = none) :
    u32sub e.now s.flash_tick = elapsed
    ∧ ((loopStep calib s e).state.flash = false ↔ FLASH_LENGTH ≤ elapsed) := by
  have key : u32sub e.now s.flash_tick = elapsed := by
    rw [htick, hnow]
    unfold u32sub U32
    unfold U32 at hel
    omega
  have key2 : u32sub (e.now % U32) s.flash_tick = elapsed := by
    rw [← key]
    unfold u32sub
    rw [Nat.mod_mod_of_dvd _ dvd_rfl]
  refine ⟨key, ?_⟩
  rw [loopStep_none calib s e hn]
  by_cases hcond : FLASH_LENGTH ≤ elapsed
  · rw [if_pos ⟨hs, key2 ▸ hcond⟩]
    simpa using hcond
  · have hneg : ¬(s.flash = true
        ∧ FLASH_LENGTH ≤ u32sub (e.now % U32) s.flash_tick) := by
      rintro ⟨-, hge⟩
      rw [key2] at hge
      exact hcond hge
    rw [if_neg hneg]
    constructor
    · intro hfalse
      rw [hs] at hfalse
      cases hfalse
    · intro hge
      exact absurd hge hcond

/-- Witness for C8 across a wraparound: flash stamped at true time
4294967246 (tick 4294967246), checked 120 ticks later at wrapped clock value
70; the unsigned difference is 120 and the timeout fires. -/
theorem C8_wrap_safe_elapsed_witness :
    120 < U32
    ∧ (u32sub ((4294967246 + 120) % U32) (4294967246 % U32) = 120
      ∧ ((loopStep PRESSURE_CALIB
          { flash := true, flash_tick := 4294967246 % U32,
            readings := initReadings, neo := brightGreen }
          { now := (4294967246 + 120) % U32, cmd := none,
            ema_bitval := EFloat.nan, ema_mA := EFloat.nan }).state.flash
            = false
        ↔ FLASH_LENGTH ≤ 120)) :=
  ⟨by decide,
   C8_wrap_safe_elapsed PRESSURE_CALIB
     { flash := true, flash_tick := 4294967246 % U32,
       readings := initReadings, neo := brightGreen }
     { now := (4294967246 + 120) % U32, cmd := none,
       ema_bitval := EFloat.nan, ema_mA := EFloat.nan }
     4294967246 120 (by decide) rfl rfl rfl rfl⟩

/-- C6: before any valid acquisition sample every Reading field is
not-a-number, and a report command in that state still emits a complete
record whose numeric fields are nan markers: the NaN value propagates
unmodified through the Calibration Transform into the output, and the
iteration is a total function with no error path. -/
theorem C6_nan_propagation (calib : Pressure_Calibration) (s : LoopState)
    (e : Env) (h : e.cmd = some "?") (hb : e.ema_bitval = EFloat.nan)
    (hm : e.ema_mA = EFloat.nan) :
    (initReadings.pres_bitval = EFloat.nan
      ∧ initReadings.pres_mA = EFloat.nan
      ∧ initReadings.pres_bar = EFloat.nan)
    ∧ mA2bar EFloat.nan calib = EFloat.nan
    ∧ (loopStep calib s e).out = "nan\tnan\tnan\n"
    ∧ (loopStep calib s e).state.readings
      = { pres_bitval := EFloat.nan, pres_mA := EFloat.nan,
          pres_bar := EFloat.nan } := by
  refine ⟨⟨rfl, rfl, rfl⟩, rfl, ?_, ?_⟩
  · rw [loopStep_report calib s e h, hb, hm]
    rfl
  · rw [loopStep_report calib s e h, hb, hm]
    rfl

/-- Witness for C6: the first-ever report command (readings never sampled)
emits the all-nan record. -/
theorem C6_nan_propagation_witness :
    (loopStep PRESSURE_CALIB (initState 0)
        { now := 0, cmd := some "?", ema_bitval := EFloat.nan,
          ema_mA := EFloat.nan }).out = "nan\tnan\tnan\n" :=
  (C6_nan_propagation PRESSURE_CALIB (initState 0)
    { now := 0, cmd := some "?", ema_bitval := EFloat.nan,
      ema_mA := EFloat.nan } rfl rfl rfl).2.2.1

/-- C1: a report query snapshots the proxy's filtered bit value and milliamp
value into Reading, computes pressure via the Calibration Transform, and
emits exactly one record of the three Reading fields in order raw bit value,
current, pressure, tab-separated, newline-terminated, formatted with 0, 2
and 3 decimal places; with the proxy at bit value 2048 and 12.0 mA and
calibration zero 4, span 16, full scale 10, the record is
"2048\t12.00\t5.000\n". -/
theorem C1_report_query (calib : Pressure_Calibration) (s : LoopState)
    (e : Env) (h : e.cmd = some "?") :
    ((loopStep calib s e).state.readings
      = { pres_bitval := e.ema_bitval, pres_mA := e.ema_mA,
          pres_bar := mA2bar e.ema_mA calib }
    ∧ (loopStep calib s e).out
      = printFloat e.ema_bitval 0 ++ "\t" ++ printFloat e.ema_mA 2 ++ "\t"
        ++ printFloat (mA2bar e.ema_mA calib) 3 ++ "\n"
    ∧ (loopStep calib s e).events
      = [Event.pollEMA, Event.pollCommand, Event.neoShow brightGreen,
         Event.serialEmit ((loopStep calib s e).out)])
    ∧ (loopStep { zero_mA := 4, span_mA := 16, full_range_bar := 10 }
        (initState 0)
        { now := 0, cmd := some "?", ema_bitval := some 2048,
          ema_mA := some 12 }).out
      = "2048\t12.00\t5.000\n" := by
  have hbar : mA2bar (some 12)
      { zero_mA := 4, span_mA := 16, full_range_bar := 10 } = some 5 := by
    show some (mA2barQ 12 { zero_mA := 4, span_mA := 16, full_range_bar := 10 })
      = some 5
    unfold mA2barQ
    norm_num
  constructor
  · rw [loopStep_report calib s e h]
    exact ⟨rfl, rfl, rfl⟩
  · rw [loopStep_report { zero_mA := 4, span_mA := 16, full_range_bar := 10 }
      (initState 0)
      { now := 0, cmd := some "?", ema_bitval := some 2048, ema_mA := some 12 }
      rfl]
    show reportRecord { pres_bitval := some 2048, pres_mA := some 12,
                        pres_bar := mA2bar (some 12)
                          { zero_mA := 4, span_mA := 16,
                            full_range_bar := 10 } } = _
    rw [reportRecord, hbar]
    show printFloat (some 2048) 0 ++ "\t" ++ printFloat (some 12) 2 ++ "\t"
      ++ printFloat (some 5) 3 ++ "\n" = _
    rw [printFloat_2048, printFloat_12, printFloat_5]
    rfl

/-- Witness for C1: the end-to-end report scenario of the spec. -/
theorem C1_report_query_witness :
    (loopStep { zero_mA := 4, span_mA := 16, full_range_bar := 10 }
        (initState 0)
        { now := 0, cmd := some "?", ema_bitval := some 2048,
          ema_mA := some 12 }).out
      = "2048\t12.00\t5.000\n" :=
  (C1_report_query { zero_mA := 4, span_mA := 16, full_range_bar := 10 }
    (initState 0)
    { now := 0, cmd := some "?", ema_bitval := some 2048, ema_mA := some 12 }
    rfl).2
